import Mathlib

/-!
Verification of the cafe-staffing linear-programming page (src/app.py).

The script builds one fixed mixed-integer LP (minimize x1 + x2 subject to
x1 >= 2, x1 + x2 >= 3, x2 >= 2 over non-negative integer variables),
solves it through the external PuLP solver, prints the solution with
Python int() truncation, and draws the infeasible half-planes of the three
constraints with matplotlib fill calls over the viewport [0,6] x [0,6].

Solver values are embedded as rationals (PuLP hands back floats; every
value reachable in this development is exactly representable). The external
solver call itself is modelled from the specification of the Solver
Adapter, see SolverContract below.
-/

/-- Status of a solve, as enumerated by the spec for the Solver Adapter
(PuLP LpStatus in src/app.py line 112/121). -/
inductive SolveStatus
  | Optimal
  | Infeasible
  | Unbounded
  | NotSolved
deriving DecidableEq

/-- Result of the solve step: the status plus, when present, the values
read from x1.varValue, x2.varValue and value(prob.objective)
(src/app.py lines 112-116). -/
structure SolveResult where
  status : SolveStatus
  x1 : Option ℚ
  x2 : Option ℚ
  obj : Option ℚ

/-- Linear constraint a * x1 + b * x2 >= c (all three constraints of the
fixed instance use the >= operator). -/
structure Constraint where
  a : ℚ
  b : ℚ
  c : ℚ
deriving DecidableEq

/-- The fixed constraint list added to the problem at src/app.py
lines 101-103: x1 >= 2, x1 + x2 >= 3, x2 >= 2. -/
def constraints : List Constraint := [⟨1, 0, 2⟩, ⟨1, 1, 3⟩, ⟨0, 1, 2⟩]

/-- A point satisfies a constraint when a * x1 + b * x2 >= c. -/
def satisfies (c : Constraint) (p q : ℚ) : Prop := c.a * p + c.b * q ≥ c.c

/-- Objective of the fixed instance, prob += x1 + x2 at src/app.py line 98. -/
def objFn (v : ℚ × ℚ) : ℚ := v.1 + v.2

/-- Feasibility for the fixed instance: the variable domains declared at
src/app.py lines 94-95 (lower bound 0, integer category) together with the
three constraints of the list. A rational is integral exactly when its
reduced denominator is 1. -/
def Feasible (v : ℚ × ℚ) : Prop :=
  0 ≤ v.1 ∧ 0 ≤ v.2 ∧ v.1.den = 1 ∧ v.2.den = 1 ∧
    ∀ c ∈ constraints, satisfies c v.1 v.2

/-- Modelled from the spec: the Solver Adapter (the external PuLP call
prob.solve() at src/app.py line 106 — no solver code lives in this
repository). Per spec sections 3, 4.2 and 6, the adapter returns one of the
four statuses; a feasible instance whose objective is bounded below is
reported Optimal, and an Optimal result carries variable values that are
feasible (hence integral and within the domains), minimize the objective
over the feasible set, and an objective value equal to the objective
expression evaluated at those variable values. -/
def SolverContract (r : SolveResult) : Prop :=
  ((∃ v, Feasible v) ∧ (∃ m : ℚ, ∀ v, Feasible v → m ≤ objFn v) →
      r.status = SolveStatus.Optimal) ∧
  (r.status = SolveStatus.Optimal →
      ∃ a b, r.x1 = some a ∧ r.x2 = some b ∧ Feasible (a, b) ∧
        (∀ v, Feasible v → objFn (a, b) ≤ objFn v) ∧
        r.obj = some (objFn (a, b)))

/-- Viewport lower x bound, src/app.py line 139. -/
def x_min : ℚ := 0

/-- Viewport upper x bound, src/app.py line 139. -/
def x_max : ℚ := 6

/-- Viewport lower y bound, src/app.py line 140. -/
def y_min : ℚ := 0

/-- Viewport upper y bound, src/app.py line 140. -/
def y_max : ℚ := 6

/-- Membership in the rectangular viewport fixed by set_xlim/set_ylim
(src/app.py lines 165-166). -/
def inViewport (p q : ℚ) : Prop :=
  x_min ≤ p ∧ p ≤ x_max ∧ y_min ≤ q ∧ q ≤ y_max

/-- Shaded region for constraint 1 (x1 >= 2), parameterized by the
viewport: ax.fill_betweenx(y, 0, 2, where=(x >= 0)) at src/app.py
line 146, clipped to the axes limits. The where mask is evaluated on the
parallel x linspace, so the mask entry governing fill position q is the
x sample sharing its index, namely xmin + (q - ymin) * (xmax - xmin) /
(ymax - ymin). -/
def region_C1 (xmin xmax ymin ymax p q : ℚ) : Prop :=
  0 ≤ p ∧ p ≤ 2 ∧
  0 ≤ xmin + (q - ymin) * (xmax - xmin) / (ymax - ymin) ∧
  xmin ≤ p ∧ p ≤ xmax ∧ ymin ≤ q ∧ q ≤ ymax

/-- Vertical boundary line drawn for constraint 1, ax.axvline(x=2) at
src/app.py line 145: the set of points with x coordinate 2, clipped to
the axes limits. -/
def axvline_C1 (p q : ℚ) : Prop := p = 2 ∧ inViewport p q

/-- Boundary samples for constraint 2, line2_x2 = 3 - x at src/app.py
line 149. -/
def line2_x2 (x : ℚ) : ℚ := 3 - x

/-- Fill boundary for constraint 2, y_fill_c2 = 3 - x_fill at src/app.py
line 155. -/
def y_fill_c2 (x : ℚ) : ℚ := 3 - x

/-- Shaded region for constraint 2 (x1 + x2 >= 3):
ax.fill_between(x_fill, y_min, y_fill_c2, where=(y_fill_c2 >= y_min) &
(x_fill >= x_min)) at src/app.py line 156, clipped to the axes limits. -/
def region_C2 (p q : ℚ) : Prop :=
  x_min ≤ p ∧ p ≤ x_max ∧
  y_fill_c2 p ≥ y_min ∧ p ≥ x_min ∧
  y_min ≤ q ∧ q ≤ y_fill_c2 p ∧ q ≤ y_max

/-- Shaded region for constraint 3 (x2 >= 2):
ax.fill_between(x, 0, 2, where=(y >= 0)) at src/app.py line 161, clipped
to the axes limits. The where mask is evaluated on the parallel y
linspace, so the mask entry governing fill position p is the y sample
sharing its index, namely y_min + (p - x_min) * (y_max - y_min) /
(x_max - x_min). -/
def region_C3 (p q : ℚ) : Prop :=
  x_min ≤ p ∧ p ≤ x_max ∧
  0 ≤ y_min + (p - x_min) * (y_max - y_min) / (x_max - x_min) ∧
  0 ≤ q ∧ q ≤ 2 ∧ y_min ≤ q ∧ q ≤ y_max

/-- Python int() truncation toward zero, as applied to the solver values
at src/app.py lines 117-119 and 180-181. -/
def pyInt (q : ℚ) : ℤ := q.num.tdiv q.den

/-- Objective iso-line samples, obj_line_y = optimal_obj_val - obj_line_x
at src/app.py line 188. -/
def obj_line_y (z x : ℚ) : ℚ := z - x

/-- Rendered (viewport-clipped) objective iso-line through the optimal
value z: the curve y = obj_line_y z x restricted to the axes limits. -/
def isoLineClipped (z p q : ℚ) : Prop :=
  q = obj_line_y z p ∧ inViewport p q

/-- What the script hands to the presentation layer: the textual results
summary (the three int()-truncated numbers of src/app.py lines 117-119),
the warning flag of the else branch (line 121), the three shaded regions,
the optimal-point marker (lines 180-184) and the iso-line value
(lines 187-191). -/
structure RenderOutput where
  summary : Option (ℤ × ℤ × ℤ)
  warning : Bool
  regions : List (ℚ → ℚ → Prop)
  marker : Option (ℤ × ℤ)
  isoLine : Option ℚ

/-- The three shaded regions, produced unconditionally at src/app.py
lines 144-161, before and independent of the optimal-point branch. -/
def staticRegions : List (ℚ → ℚ → Prop) :=
  [region_C1 x_min x_max y_min y_max, region_C2, region_C3]

/-- The script flow after the solve (src/app.py lines 108-191):
optimal_x1/optimal_x2/optimal_obj_val stay None unless the status is
Optimal; the summary and marker apply int(); the regions are drawn
unconditionally; the marker and iso-line are drawn only when the optimal
values are present. A missing value in the Optimal branch would make
int(None) raise, modelled by the none result. -/
def render (r : SolveResult) : Option RenderOutput :=
  if r.status = SolveStatus.Optimal then
    match r.x1, r.x2, r.obj with
    | some a, some b, some z =>
        some { summary := some (pyInt a, pyInt b, pyInt z)
               warning := false
               regions := staticRegions
               marker := some (pyInt a, pyInt b)
               isoLine := some z }
    | _, _, _ => none
  else
    some { summary := none
           warning := true
           regions := staticRegions
           marker := none
           isoLine := none }

/-- The solve result the external solver actually produces on the fixed
instance: Optimal with x1 = 2, x2 = 2, objective 4. -/
def r0 : SolveResult := ⟨SolveStatus.Optimal, some 2, some 2, some 4⟩

/-- Unfolded form of feasibility for the fixed instance. -/
lemma feasible_iff (v : ℚ × ℚ) :
    Feasible v ↔
      0 ≤ v.1 ∧ 0 ≤ v.2 ∧ v.1.den = 1 ∧ v.2.den = 1 ∧
        2 ≤ v.1 ∧ 3 ≤ v.1 + v.2 ∧ 2 ≤ v.2 := by
  simp only [Feasible, constraints, satisfies, List.mem_cons,
    List.mem_singleton, List.not_mem_nil, or_false, forall_eq_or_imp,
    forall_eq, ge_iff_le]
  constructor
  · rintro ⟨h1, h2, h3, h4, h5, h6, h7⟩
    refine ⟨h1, h2, h3, h4, by linarith, by linarith, by linarith⟩
  · rintro ⟨h1, h2, h3, h4, h5, h6, h7⟩
    refine ⟨h1, h2, h3, h4, by linarith, by linarith, by linarith⟩

/-- The point (2, 2) is feasible for the fixed instance. -/
lemma feasible_two_two : Feasible (2, 2) := by
  rw [feasible_iff]
  refine ⟨by norm_num, by norm_num, rfl, rfl, by norm_num, by norm_num,
    by norm_num⟩

/-- The concrete solve result r0 satisfies the Solver Adapter contract. -/
lemma contract_r0 : SolverContract r0 := by
  constructor
  · intro _; rfl
  · intro _
    refine ⟨2, 2, rfl, rfl, feasible_two_two, ?_, ?_⟩
    · intro v hv
      rw [feasible_iff] at hv
      obtain ⟨-, -, -, -, h5, -, h7⟩ := hv
      simp only [objFn]
      linarith
    · simp only [objFn, r0]
      norm_num

/-- Integral rationals are fixed points of the int() truncation. -/
lemma pyInt_den_one (q : ℚ) (h : q.den = 1) : (pyInt q : ℚ) = q := by
  unfold pyInt
  rw [h]
  push_cast
  rw [Int.tdiv_one]
  exact_mod_cast Rat.den_eq_one_iff q |>.mp h

/-- The truncation moves 5/2 to 2, so a non-integral value is changed. -/
lemma pyInt_five_halves : (pyInt (5 / 2) : ℚ) ≠ 5 / 2 := by
  have h : ((5 : ℚ) / 2).num = 5 ∧ ((5 : ℚ) / 2).den = 2 := by norm_num
  have h2 : pyInt (5 / 2) = 2 := by simp [pyInt, h.1, h.2]; decide
  rw [h2]
  norm_num

/-- Reduction of render in the Optimal branch with all values present. -/
lemma render_optimal (r : SolveResult) (a b z : ℚ)
    (hst : r.status = SolveStatus.Optimal)
    (hx1 : r.x1 = some a) (hx2 : r.x2 = some b) (hz : r.obj = some z) :
    render r = some { summary := some (pyInt a, pyInt b, pyInt z)
                      warning := false
                      regions := staticRegions
                      marker := some (pyInt a, pyInt b)
                      isoLine := some z } := by
  simp [render, hst, hx1, hx2, hz]

/-- C1: for the fixed cafe-staffing instance (minimize x1 + x2 subject to
x1 >= 2, x1 + x2 >= 3, x2 >= 2, with x1, x2 non-negative integers), the
solve step returns status Optimal with variable values x1 = 2 and x2 = 2
and objective value 4. -/
theorem solve_returns_unique_optimal (r : SolveResult)
    (hc : SolverContract r) :
    r.status = SolveStatus.Optimal ∧ r.x1 = some 2 ∧ r.x2 = some 2 ∧
      r.obj = some 4 := by
  have hopt : r.status = SolveStatus.Optimal := by
    refine hc.1 ⟨⟨(2, 2), feasible_two_two⟩, 0, ?_⟩
    intro v hv
    rw [feasible_iff] at hv
    obtain ⟨h1, h2, -⟩ := hv
    simp only [objFn]
    linarith
  obtain ⟨a, b, hx1, hx2, hfeas, hmin, hobj⟩ := hc.2 hopt
  have hub : objFn (a, b) ≤ objFn (2, 2) := hmin (2, 2) feasible_two_two
  rw [feasible_iff] at hfeas
  obtain ⟨-, -, -, -, ha2, -, hb2⟩ := hfeas
  simp only [objFn] at hub hobj
  norm_num at hub
  have ha : a = 2 := by linarith
  have hb : b = 2 := by linarith
  refine ⟨hopt, ?_, ?_, ?_⟩
  · rw [hx1, ha]
  · rw [hx2, hb]
  · rw [hobj, ha, hb]; norm_num

/-- Witness for C1 at the concrete solve result r0. -/
theorem solve_returns_unique_optimal_witness :
    SolverContract r0 ∧
      (r0.status = SolveStatus.Optimal ∧ r0.x1 = some 2 ∧
        r0.x2 = some 2 ∧ r0.obj = some 4) :=
  ⟨contract_r0, solve_returns_unique_optimal r0 contract_r0⟩

/-- C2: every SolveResult with status Optimal returned for the fixed
instance reports values with x1 >= 2, x2 >= 2, x1 + x2 >= 3, both values
integral and non-negative, and an objective value equal to x1 + x2
evaluated at those values. -/
theorem optimal_result_invariant (r : SolveResult)
    (hc : SolverContract r) (hopt : r.status = SolveStatus.Optimal) :
    ∃ a b, r.x1 = some a ∧ r.x2 = some b ∧
      2 ≤ a ∧ 2 ≤ b ∧ 3 ≤ a + b ∧
      a.den = 1 ∧ b.den = 1 ∧ 0 ≤ a ∧ 0 ≤ b ∧
      r.obj = some (objFn (a, b)) ∧ objFn (a, b) = a + b := by
  obtain ⟨a, b, hx1, hx2, hfeas, -, hobj⟩ := hc.2 hopt
  rw [feasible_iff] at hfeas
  obtain ⟨h1, h2, h3, h4, h5, h6, h7⟩ := hfeas
  exact ⟨a, b, hx1, hx2, h5, h7, h6, h3, h4, h1, h2, hobj, rfl⟩

/-- Witness for C2 at the concrete solve result r0. -/
theorem optimal_result_invariant_witness :
    (SolverContract r0 ∧ r0.status = SolveStatus.Optimal) ∧
      (∃ a b, r0.x1 = some a ∧ r0.x2 = some b ∧
        2 ≤ a ∧ 2 ≤ b ∧ 3 ≤ a + b ∧
        a.den = 1 ∧ b.den = 1 ∧ 0 ≤ a ∧ 0 ≤ b ∧
        r0.obj = some (objFn (a, b)) ∧ objFn (a, b) = a + b) :=
  ⟨⟨contract_r0, rfl⟩, optimal_result_invariant r0 contract_r0 rfl⟩

/-- C3: every point strictly satisfying all three constraints
(p > 2, q > 2, p + q > 3) that lies inside the viewport is contained in
none of the three shaded infeasible regions. -/
theorem strict_feasible_not_shaded (p q : ℚ)
    (h1 : 2 < p) (h2 : 2 < q) (_h3 : 3 < p + q) (hv : inViewport p q) :
    ¬ region_C1 x_min x_max y_min y_max p q ∧
      ¬ region_C2 p q ∧ ¬ region_C3 p q := by
  obtain ⟨hxl, hxr, hyl, hyr⟩ := hv
  simp only [x_min, x_max, y_min, y_max] at hxl hxr hyl hyr
  refine ⟨?_, ?_, ?_⟩
  · rintro ⟨-, hp2, -⟩
    linarith
  · rintro ⟨-, -, -, -, -, hq, -⟩
    simp only [y_fill_c2] at hq
    linarith
  · rintro ⟨-, -, -, -, hq2, -⟩
    linarith

/-- Witness for C3 at the strictly feasible viewport point (3, 3). -/
theorem strict_feasible_not_shaded_witness :
    ((2:ℚ) < 3 ∧ (2:ℚ) < 3 ∧ (3:ℚ) < 3 + 3 ∧ inViewport 3 3) ∧
      (¬ region_C1 x_min x_max y_min y_max 3 3 ∧
        ¬ region_C2 3 3 ∧ ¬ region_C3 3 3) :=
  ⟨⟨by norm_num, by norm_num, by norm_num,
      by norm_num [inViewport, x_min, x_max, y_min, y_max]⟩,
    strict_feasible_not_shaded 3 3 (by norm_num) (by norm_num) (by norm_num)
      (by norm_num [inViewport, x_min, x_max, y_min, y_max])⟩

/-- Counterexample to C4 as stated: the boundary point (0, 3) lies in the
shaded region of constraint 2 although it does not satisfy the strict
inequality 1 * 0 + 1 * 3 < 3, so the shading is not exactly the open
half-plane. -/
theorem halfplane_strict_shading_fails :
    region_C2 0 3 ∧ ¬ ((1:ℚ) * 0 + 1 * 3 < 3) := by
  constructor
  · refine ⟨?_, ?_, ?_, ?_, ?_, ?_, ?_⟩ <;>
      norm_num [x_min, x_max, y_min, y_max, y_fill_c2]
  · norm_num

/-- C4 (amended): for each constraint a * x1 + b * x2 >= c with b nonzero
(the second and third constraints of the list), the derivation samples the
boundary line y = (c - a * x) / b over the viewport x range and shades
exactly the closed half-plane a * x1 + b * x2 <= c, rendered between the
viewport lower y bound and the boundary line and clipped to the viewport. -/
theorem halfplane_shading_closed :
    (∀ c ∈ constraints, c.b ≠ 0 →
      c = (⟨1, 1, 3⟩ : Constraint) ∨ c = (⟨0, 1, 2⟩ : Constraint)) ∧
    (∀ x : ℚ, line2_x2 x = (3 - 1 * x) / 1) ∧
    (∀ x : ℚ, y_fill_c2 x = (3 - 1 * x) / 1) ∧
    (∀ p q : ℚ, region_C2 p q ↔
      (1 * p + 1 * q ≤ 3 ∧ y_min ≤ q ∧ q ≤ y_fill_c2 p ∧ inViewport p q)) ∧
    (∀ x : ℚ, (2:ℚ) = (2 - 0 * x) / 1) ∧
    (∀ p q : ℚ, region_C3 p q ↔
      (0 * p + 1 * q ≤ 2 ∧ inViewport p q)) := by
  refine ⟨?_, ?_, ?_, ?_, ?_, ?_⟩
  · intro c hc hb
    simp only [constraints, List.mem_cons, List.not_mem_nil, or_false] at hc
    rcases hc with h | h | h
    · exfalso; rw [h] at hb; exact hb rfl
    · exact Or.inl h
    · exact Or.inr h
  · intro x; simp only [line2_x2]; ring
  · intro x; simp only [y_fill_c2]; ring
  · intro p q
    simp only [region_C2, y_fill_c2, inViewport, x_min, x_max, y_min, y_max,
      ge_iff_le]
    constructor
    · rintro ⟨h1, h2, h3, h4, h5, h6, h7⟩
      refine ⟨by linarith, by linarith, by linarith, h1, h2, h5, h7⟩
    · rintro ⟨h1, h2, -, ⟨h4, h5, h6, h7⟩⟩
      refine ⟨h4, h5, by linarith, h4, h6, by linarith, h7⟩
  · intro x; ring
  · intro p q
    simp only [region_C3, inViewport, x_min, x_max, y_min, y_max]
    constructor
    · rintro ⟨h1, h2, h3, h4, h5, h6, h7⟩
      refine ⟨by linarith, h1, h2, h6, h7⟩
    · rintro ⟨h1, ⟨h2, h3, h4, h5⟩⟩
      refine ⟨h2, h3, ?_, h4, by linarith, h4, h5⟩
      have he : (0:ℚ) + (p - 0) * (6 - 0) / (6 - 0) = p := by ring
      rw [he]
      exact h2

/-- Witness for C4 at the constraint x1 + x2 >= 3 and the point (1, 1). -/
theorem halfplane_shading_closed_witness :
    ((⟨1, 1, 3⟩ : Constraint) ∈ constraints ∧
        (⟨1, 1, 3⟩ : Constraint).b ≠ 0) ∧
      ((⟨1, 1, 3⟩ : Constraint) = (⟨1, 1, 3⟩ : Constraint) ∨
        (⟨1, 1, 3⟩ : Constraint) = (⟨0, 1, 2⟩ : Constraint)) ∧
      (region_C2 1 1 ↔
        ((1:ℚ) * 1 + 1 * 1 ≤ 3 ∧ y_min ≤ 1 ∧ (1:ℚ) ≤ y_fill_c2 1 ∧
          inViewport 1 1)) :=
  ⟨⟨by simp [constraints], by norm_num⟩,
    halfplane_shading_closed.1 ⟨1, 1, 3⟩ (by simp [constraints]) (by norm_num),
    halfplane_shading_closed.2.2.2.1 1 1⟩

/-- Counterexample to C5 as stated: the boundary point (2, 0) lies in the
shaded band of constraint 1 although it does not satisfy the strict
inequality 2 < 2, so the band is not the open set x1 < 2. -/
theorem vertical_band_strict_fails :
    region_C1 x_min x_max y_min y_max 2 0 ∧ ¬ ((2:ℚ) < 2) := by
  constructor
  · refine ⟨?_, ?_, ?_, ?_, ?_, ?_, ?_⟩ <;>
      norm_num [x_min, x_max, y_min, y_max]
  · norm_num

/-- C5 (amended): the constraint with b = 0 (the first of the list,
x1 >= 2) gets the vertical boundary line x = c, the viewport-clipped set
of points with x coordinate c = 2 drawn by the axvline call, and a shaded
vertical band that is exactly the closed set x1 <= 2 clipped to the
viewport. -/
theorem vertical_band_shading_closed :
    ((⟨1, 0, 2⟩ : Constraint) ∈ constraints ∧
        (⟨1, 0, 2⟩ : Constraint).b = 0) ∧
    (∀ p q : ℚ, axvline_C1 p q ↔
      (p = (⟨1, 0, 2⟩ : Constraint).c ∧ inViewport p q)) ∧
    (∀ p q : ℚ,
      region_C1 x_min x_max y_min y_max p q ↔ (p ≤ 2 ∧ inViewport p q)) := by
  refine ⟨⟨by simp [constraints], rfl⟩, fun _ _ => Iff.rfl, ?_⟩
  intro p q
  simp only [region_C1, inViewport, x_min, x_max, y_min, y_max]
  constructor
  · rintro ⟨h1, h2, h3, h4, h5, h6, h7⟩
    exact ⟨h2, h4, h5, h6, h7⟩
  · rintro ⟨h1, ⟨h2, h3, h4, h5⟩⟩
    refine ⟨h2, h1, ?_, h2, h3, h4, h5⟩
    have he : (0:ℚ) + (q - 0) * (6 - 0) / (6 - 0) = q := by ring
    rw [he]
    exact h4

/-- Witness for C5: the boundary-line iff at the boundary point (2, 0)
and the band iff at the interior point (1, 1). -/
theorem vertical_band_shading_closed_witness :
    (axvline_C1 2 0 ↔
      ((2:ℚ) = (⟨1, 0, 2⟩ : Constraint).c ∧ inViewport 2 0)) ∧
    (region_C1 x_min x_max y_min y_max 1 1 ↔ ((1:ℚ) ≤ 2 ∧ inViewport 1 1)) :=
  ⟨vertical_band_shading_closed.2.1 2 0, vertical_band_shading_closed.2.2 1 1⟩

/-- Counterexample to C6 as stated: with viewport x in [0,1], y in [0,1]
the shaded region that the fill for constraint x1 >= 2 produces contains
the point (1/2, 1/2), so it is not empty. -/
theorem outside_viewport_band_nonempty :
    region_C1 0 1 0 1 (1/2) (1/2) := by
  refine ⟨?_, ?_, ?_, ?_, ?_, ?_, ?_⟩ <;> norm_num

/-- C6 (amended): with viewport x in [0,1], y in [0,1] the derivation for
the constraint x1 >= 2 still produces a region without failing, but that
region is the whole viewport, every point of which is on the infeasible
side of the constraint — not an empty region. -/
theorem outside_viewport_band_full :
    (∀ p q : ℚ,
      region_C1 0 1 0 1 p q ↔ (0 ≤ p ∧ p ≤ 1 ∧ 0 ≤ q ∧ q ≤ 1)) ∧
    (∀ p q : ℚ, region_C1 0 1 0 1 p q →
      ¬ satisfies ⟨1, 0, 2⟩ p q) := by
  constructor
  · intro p q
    simp only [region_C1]
    constructor
    · rintro ⟨h1, h2, h3, h4, h5, h6, h7⟩
      exact ⟨h1, h5, h6, h7⟩
    · rintro ⟨h1, h2, h3, h4⟩
      refine ⟨h1, by linarith, ?_, h1, h2, h3, h4⟩
      have he : (0:ℚ) + (q - 0) * (1 - 0) / (1 - 0) = q := by ring
      rw [he]
      exact h3
  · intro p q hr
    simp only [region_C1] at hr
    simp only [satisfies, ge_iff_le, not_le]
    obtain ⟨-, -, -, -, hp1, -, -⟩ := hr
    norm_num
    linarith

/-- Witness for C6 at the point (1/2, 1/2) of the unit viewport. -/
theorem outside_viewport_band_full_witness :
    region_C1 0 1 0 1 (1/2) (1/2) ∧ ¬ satisfies ⟨1, 0, 2⟩ (1/2) (1/2) :=
  ⟨by refine ⟨?_, ?_, ?_, ?_, ?_, ?_, ?_⟩ <;> norm_num,
    outside_viewport_band_full.2 (1/2) (1/2)
      (by refine ⟨?_, ?_, ?_, ?_, ?_, ?_, ?_⟩ <;> norm_num)⟩

/-- C7: if the solve status is not Optimal, the marker and the iso-line
are omitted and a warning is surfaced instead, while the three shaded
regions are still produced from the static constraint list for every
solve result, independent of the solve outcome. -/
theorem nonoptimal_omits_marker :
    (∀ r : SolveResult, r.status ≠ SolveStatus.Optimal →
      render r = some { summary := none, warning := true,
                        regions := staticRegions, marker := none,
                        isoLine := none }) ∧
    (∀ (r : SolveResult) (out : RenderOutput),
      render r = some out → out.regions = staticRegions) := by
  constructor
  · intro r hr
    simp [render, hr]
  · intro r out h
    by_cases hs : r.status = SolveStatus.Optimal
    · rcases hx1 : r.x1 with _ | a
      · simp [render, hs, hx1] at h
      · rcases hx2 : r.x2 with _ | b
        · simp [render, hs, hx1, hx2] at h
        · rcases hz : r.obj with _ | z
          · simp [render, hs, hx1, hx2, hz] at h
          · simp [render, hs, hx1, hx2, hz] at h
            rw [← h]
    · simp [render, hs] at h
      rw [← h]

/-- Witness for C7 at an Infeasible solve result. -/
theorem nonoptimal_omits_marker_witness :
    ((⟨SolveStatus.Infeasible, none, none, none⟩ : SolveResult).status ≠
        SolveStatus.Optimal) ∧
      render ⟨SolveStatus.Infeasible, none, none, none⟩ =
        some { summary := none, warning := true, regions := staticRegions,
               marker := none, isoLine := none } :=
  ⟨by decide, nonoptimal_omits_marker.1 _ (by decide)⟩

/-- C8: when the status is Optimal (so that, by the data-model invariant,
the reported values are integral), the derivation produces a marker at
the optimal point and the objective iso-line y = Z - x through the
optimal value Z, clipped to the viewport. -/
theorem optimal_marker_isoline (r : SolveResult) (a b z : ℚ)
    (hst : r.status = SolveStatus.Optimal)
    (hx1 : r.x1 = some a) (hx2 : r.x2 = some b) (hz : r.obj = some z)
    (ha : a.den = 1) (hb : b.den = 1) :
    ∃ out, render r = some out ∧
      out.marker = some (pyInt a, pyInt b) ∧
      ((pyInt a : ℚ) = a ∧ (pyInt b : ℚ) = b) ∧
      out.isoLine = some z ∧
      (∀ p q : ℚ, isoLineClipped z p q ↔ (q = z - p ∧ inViewport p q)) :=
  ⟨_, render_optimal r a b z hst hx1 hx2 hz, rfl,
    ⟨pyInt_den_one a ha, pyInt_den_one b hb⟩, rfl, fun _ _ => Iff.rfl⟩

/-- Witness for C8 at the concrete solve result r0. -/
theorem optimal_marker_isoline_witness :
    (r0.status = SolveStatus.Optimal ∧ r0.x1 = some 2 ∧ r0.x2 = some 2 ∧
      r0.obj = some 4 ∧ ((2:ℚ)).den = 1) ∧
    (∃ out, render r0 = some out ∧ out.marker = some (pyInt 2, pyInt 2) ∧
      ((pyInt 2 : ℚ) = 2 ∧ (pyInt 2 : ℚ) = 2) ∧ out.isoLine = some 4 ∧
      (∀ p q : ℚ, isoLineClipped 4 p q ↔ (q = 4 - p ∧ inViewport p q))) :=
  ⟨⟨rfl, rfl, rfl, rfl, rfl⟩,
    optimal_marker_isoline r0 2 2 4 rfl rfl rfl rfl rfl rfl⟩

/-- C9: the displayed results summary and the plotted marker use the
solver values truncated with int(); a value that is already integral is
displayed unchanged, and some non-integral value would be displayed
differently. -/
theorem displayed_values_truncated :
    (∀ (r : SolveResult) (a b z : ℚ), r.status = SolveStatus.Optimal →
      r.x1 = some a → r.x2 = some b → r.obj = some z →
      ∃ out, render r = some out ∧
        out.summary = some (pyInt a, pyInt b, pyInt z) ∧
        out.marker = some (pyInt a, pyInt b)) ∧
    (∀ q : ℚ, q.den = 1 → (pyInt q : ℚ) = q) ∧
    (∃ q : ℚ, (pyInt q : ℚ) ≠ q) := by
  refine ⟨?_, pyInt_den_one, ⟨5/2, pyInt_five_halves⟩⟩
  intro r a b z hst hx1 hx2 hz
  exact ⟨_, render_optimal r a b z hst hx1 hx2 hz, rfl, rfl⟩

/-- Witness for C9 at the concrete solve result r0. -/
theorem displayed_values_truncated_witness :
    (r0.status = SolveStatus.Optimal ∧ r0.x1 = some 2 ∧ r0.x2 = some 2 ∧
      r0.obj = some 4) ∧
    (∃ out, render r0 = some out ∧
      out.summary = some (pyInt 2, pyInt 2, pyInt 4) ∧
      out.marker = some (pyInt 2, pyInt 2)) :=
  ⟨⟨rfl, rfl, rfl, rfl⟩,
    displayed_values_truncated.1 r0 2 2 4 rfl rfl rfl rfl⟩

/-- C10: when the status is Optimal, the objective value equals the sum of
the variable values and those values are integral, the plotted iso-line
y = Z - x passes exactly through the plotted marker point. -/
theorem isoline_through_marker (r : SolveResult) (a b z : ℚ)
    (hst : r.status = SolveStatus.Optimal)
    (hx1 : r.x1 = some a) (hx2 : r.x2 = some b) (hz : r.obj = some z)
    (hsum : z = a + b) (ha : a.den = 1) (hb : b.den = 1) :
    ∃ out, render r = some out ∧
      out.marker = some (pyInt a, pyInt b) ∧ out.isoLine = some z ∧
      obj_line_y z (pyInt a : ℚ) = (pyInt b : ℚ) := by
  refine ⟨_, render_optimal r a b z hst hx1 hx2 hz, rfl, rfl, ?_⟩
  rw [obj_line_y, pyInt_den_one a ha, pyInt_den_one b hb, hsum]
  ring

/-- Witness for C10 at the concrete solve result r0. -/
theorem isoline_through_marker_witness :
    (r0.status = SolveStatus.Optimal ∧ r0.x1 = some 2 ∧ r0.x2 = some 2 ∧
      r0.obj = some 4 ∧ (4:ℚ) = 2 + 2 ∧ ((2:ℚ)).den = 1) ∧
    (∃ out, render r0 = some out ∧
      out.marker = some (pyInt 2, pyInt 2) ∧ out.isoLine = some 4 ∧
      obj_line_y 4 (pyInt 2 : ℚ) = (pyInt 2 : ℚ)) :=
  ⟨⟨rfl, rfl, rfl, rfl, by norm_num, rfl⟩,
    isoline_through_marker r0 2 2 4 rfl rfl rfl rfl (by norm_num) rfl rfl⟩
